import Mathlib

/-!
# Limitador operator: the Limitador controller

A verification development for `controllers/limitador_controller.go`:
the deployment mutator `mutateLimitadorDeployment` and the top-level
`LimitadorReconciler.Reconcile` loop.

## Embedding

* Go pointers are addresses (`Addr`); `nil` is `none`.  The process memory
  (`Memory`) maps an address to the `int32` cell, to the `Deployment`
  struct or to the `Container` array element stored there.  A Go pointer
  is either nil or valid, so the maps are total.
* `appsv1.DeploymentSpec.Replicas` has Go type `*int32`: the field holds
  an address, and the Go operator `!=` on it compares addresses.
* A `[]corev1.Container` is a slice header (`ContainerSlice`): the address
  of its element 0, a length and a capacity.  Element `i` lives at address
  `ptr + i` of the memory of container elements, so two slices over one
  backing array share elements, and an assignment through one of them is
  seen through the other.
* A `client.Object` interface value is `Object`: the nil interface, a
  `*appsv1.Deployment` (possibly a nil pointer of that type), or a value
  of another dynamic type, of which only the `%T` rendering matters.
* A Go run-time panic (nil dereference, index out of range) is the
  `panicked` outcome; it carries the memory as it was when the panic
  was raised.
* Logging calls are not modelled; they have no effect on the result.
-/

namespace controllers

/-! ## Data model -/

/-- Address of a heap cell. -/
abbrev Addr := Nat

/-- Go `error` values: a plain message (`fmt.Errorf`, `errors.New`) or an
API status error carrying a status reason. -/
inductive Error where
  | errorString (msg : String)
  | statusError (reason : String) (msg : String)
deriving DecidableEq, Repr

/-- The fields of `corev1.Container` used by the operator. -/
structure Container where
  Name : String
  Image : String
  Command : List String
  Args : List String
  Ports : List Nat
deriving DecidableEq, Repr

/-- Go slice header of a `[]corev1.Container`: the address of element 0
in the memory of container elements, the length and the capacity.  The nil
slice has length 0. -/
structure ContainerSlice where
  ptr : Addr
  len : Nat
  cap : Nat
deriving DecidableEq, Repr

/-- Go `corev1.PodSpec`. -/
structure PodSpec where
  Containers : ContainerSlice
  ServiceAccountName : String
deriving DecidableEq, Repr

/-- Go `metav1.ObjectMeta`; `DeletionTimestamp` is a `*metav1.Time`, nil
when the object is not marked to be deleted. -/
structure ObjectMeta where
  Name : String
  Namespace : String
  Labels : List (String × String)
  OwnerReferences : List String
  ResourceVersion : String
  DeletionTimestamp : Option Nat
deriving DecidableEq, Repr

/-- Go `corev1.PodTemplateSpec`. -/
structure PodTemplateSpec where
  ObjectMeta : ObjectMeta
  Spec : PodSpec
deriving DecidableEq, Repr

/-- Go `appsv1.DeploymentSpec`; `Replicas` is a `*int32`. -/
structure DeploymentSpec where
  Replicas : Option Addr
  Selector : List (String × String)
  Template : PodTemplateSpec
deriving DecidableEq, Repr

/-- Go `appsv1.Deployment`. -/
structure Deployment where
  ObjectMeta : ObjectMeta
  Spec : DeploymentSpec
deriving DecidableEq, Repr

/-- Process memory: the `int32` cells, the `Deployment` structs and the
elements of the container arrays. -/
structure Memory where
  int32 : Addr → Int
  deployments : Addr → Deployment
  elements : Addr → Container

/-- A `client.Object` interface value. -/
inductive Object where
  | nil
  | deployment (p : Option Addr)
  | other (dynType : String)
deriving DecidableEq, Repr

/-- Whether the type assertion `obj.(*appsv1.Deployment)` succeeds. -/
def Object.isDeployment : Object → Bool
  | .deployment _ => true
  | _ => false

/-- Rendering of the verb `%T` for an interface value. -/
def goTypeName : Object → String
  | .nil => "<nil>"
  | .deployment _ => "*v1.Deployment"
  | .other t => t

/-- Outcome of a call of a `reconcilers.MutateFn`. -/
inductive MutateResult where
  | returned (changed : Bool) (err : Option Error) (m : Memory)
  | panicked (m : Memory)

/-- Go `reconcilers.MutateFn`: `func(existing, desired client.Object) (bool, error)`,
run against the process memory. -/
abbrev MutateFn := Object → Object → Memory → MutateResult

/-! ## Field access -/

/-- The assignment `(*p).Spec.Replicas = r`. -/
def Memory.setReplicas (m : Memory) (p : Addr) (r : Option Addr) : Memory :=
  let d := m.deployments p
  let spec := { d.Spec with Replicas := r }
  { m with deployments := Function.update m.deployments p { d with Spec := spec } }

/-- The assignment `x.Image = img` to the container element `x` at address `a`. -/
def Memory.setImage (m : Memory) (a : Addr) (img : String) : Memory :=
  let c := m.elements a
  { m with elements := Function.update m.elements a { c with Image := img } }

/-- The slice header `(*p).Spec.Template.Spec.Containers`. -/
def Memory.containerSlice (m : Memory) (p : Addr) : ContainerSlice :=
  (m.deployments p).Spec.Template.Spec.Containers

/-- The elements of a slice, read from memory: element `i` is at `ptr + i`. -/
def Memory.slice (m : Memory) (s : ContainerSlice) : List Container :=
  (List.range s.len).map (fun i => m.elements (s.ptr + i))

/-- The containers of the deployment at `p`. -/
def Memory.containers (m : Memory) (p : Addr) : List Container :=
  m.slice (m.containerSlice p)

/-- The `Replicas` pointer of the deployment at `p`. -/
def Memory.replicas (m : Memory) (p : Addr) : Option Addr :=
  (m.deployments p).Spec.Replicas

/-- The replica count value of the deployment at `p`: the contents of the
cell its `Replicas` pointer addresses, `none` for a nil pointer. -/
def Memory.replicaCount (m : Memory) (p : Addr) : Option Int :=
  (m.replicas p).map m.int32

/-- The image of the first container of the deployment at `p`. -/
def Memory.image0 (m : Memory) (p : Addr) : Option String :=
  (m.containers p).head?.map Container.Image

/-! ## The deployment mutator -/

/-- Lines 102-105: `if existing.Spec.Replicas != desired.Spec.Replicas`
assigns the pointer and sets `updated`.  The comparison is between two
values of type `*int32`. -/
def replicasStep (existing desired : Addr) (m : Memory) (updated : Bool) : Memory × Bool :=
  if m.replicas existing ≠ m.replicas desired then
    (m.setReplicas existing (m.replicas desired), true)
  else
    (m, updated)

/-- Lines 107-112: both index expressions `Containers[0]` are evaluated
(a run-time panic when either slice has length 0; element 0 of a slice is
the array element at its `ptr`), the images compared, the image of
existing's element assigned when they differ, and the function returns
`updated, nil`. -/
def imageStep (existing desired : Addr) (m : Memory) (updated : Bool) : MutateResult :=
  let es := m.containerSlice existing
  let ds := m.containerSlice desired
  if es.len = 0 ∨ ds.len = 0 then
    .panicked m
  else if (m.elements es.ptr).Image ≠ (m.elements ds.ptr).Image then
    .returned true none (m.setImage es.ptr (m.elements ds.ptr).Image)
  else
    .returned updated none m

/-- Lines 100-112 of `mutateLimitadorDeployment`, after both type
assertions succeeded, on non-nil pointers `existing` and `desired`. -/
def mutateFields (existing desired : Addr) (m : Memory) : MutateResult :=
  let updated := false
  let (m, updated) := replicasStep existing desired m updated
  imageStep existing desired m updated

/-- Go `mutateLimitadorDeployment(existingObj, desiredObj client.Object) (bool, error)`. -/
def mutateLimitadorDeployment : MutateFn := fun existingObj desiredObj m =>
  match existingObj with
  | .deployment existing =>
    match desiredObj with
    | .deployment desired =>
      match existing, desired with
      | some e, some d => mutateFields e d m
      | _, _ => .panicked m
    | _ =>
      .returned false
        (some (.errorString (goTypeName desiredObj ++ " is not a *appsv1.Deployment"))) m
  | _ =>
    .returned false
      (some (.errorString (goTypeName existingObj ++ " is not a *appsv1.Deployment"))) m

/-! ## The top-level reconcile loop -/

/-- Go `types.NamespacedName`. -/
structure NamespacedName where
  Namespace : String
  Name : String
deriving DecidableEq, Repr

/-- Go `ctrl.Request`. -/
structure Request where
  NamespacedName : NamespacedName
deriving DecidableEq, Repr

/-- Go `ctrl.Result`. -/
structure Result where
  Requeue : Bool
  RequeueAfter : Nat
deriving DecidableEq, Repr

/-- The zero value `ctrl.Result{}`: no requeue. -/
def Result.empty : Result := { Requeue := false, RequeueAfter := 0 }

/-- Modelled from the spec: the Top-Level Resource `limitadorv1alpha1.Limitador`,
whose declaration is outside this file: an identity and a deletion marker
(both in the object metadata) and a spec with a replica count and the
version selecting the image reference. -/
structure Limitador where
  ObjectMeta : ObjectMeta
  Replicas : Option Int
  Version : Option String
deriving DecidableEq, Repr

/-- Go `(*Limitador).GetDeletionTimestamp()`. -/
def Limitador.GetDeletionTimestamp (l : Limitador) : Option Nat :=
  l.ObjectMeta.DeletionTimestamp

/-- Modelled from the spec: `reconcilers.CreateOnlyMutator`, declared outside
this file: the mutator of a fetch-or-create-only child kind, which reports
no change and no error and modifies nothing. -/
def CreateOnlyMutator : MutateFn := fun _ _ m => .returned false none m

/-- Outcome of a call to a collaborator, in a world of type `σ`: it
returns a value or panics. -/
inductive Called (σ α : Type) where
  | returned (a : α) (s : σ)
  | panicked (s : σ)

/-- The calls `Reconcile` makes to its collaborators, with their arguments. -/
inductive Invocation (Svc Dep : Type) where
  | Get (key : NamespacedName)
  | ReconcileService (desired : Svc) (mutatefn : MutateFn)
  | ReconcileDeployment (desired : Dep) (mutatefn : MutateFn)

/-- What `Reconcile` consumes from outside this file, over a world of
type `σ`: the client's `Get` of the Limitador object, `errors.IsNotFound`,
the desired-state builders of package `limitador`, and the child
reconcilers of `reconcilers.BaseReconciler`. -/
structure Collaborators (σ Svc Dep : Type) where
  Get : NamespacedName → σ → Called σ (Except Error Limitador)
  IsNotFound : Error → Bool
  LimitadorService : Limitador → Svc
  LimitadorDeployment : Limitador → Dep
  ReconcileService : Svc → MutateFn → σ → Called σ (Option Error)
  ReconcileDeployment : Dep → MutateFn → σ → Called σ (Option Error)

/-- The world during a pass: the collaborators' state and the calls made
so far, oldest first. -/
structure World (σ Svc Dep : Type) where
  state : σ
  trace : List (Invocation Svc Dep)

/-- Run a collaborator call in the world, recording it. -/
def World.call {σ Svc Dep α : Type} (w : World σ Svc Dep) (i : Invocation Svc Dep)
    (f : σ → Called σ α) : Called (World σ Svc Dep) α :=
  match f w.state with
  | .returned a s => .returned a { state := s, trace := w.trace ++ [i] }
  | .panicked s => .panicked { state := s, trace := w.trace ++ [i] }

/-- Outcome of a reconcile pass. -/
inductive ReconcileResult (ω : Type) where
  | returned (res : Result) (err : Option Error) (w : ω)
  | panicked (w : ω)

/-- The world a reconcile pass ended in. -/
def ReconcileResult.world {ω : Type} : ReconcileResult ω → ω
  | .returned _ _ w => w
  | .panicked w => w

/-- Go `(*LimitadorReconciler).Reconcile(ctx, req) (ctrl.Result, error)`. -/
def Reconcile {σ Svc Dep : Type} (r : Collaborators σ Svc Dep) (req : Request)
    (w : World σ Svc Dep) : ReconcileResult (World σ Svc Dep) :=
  match w.call (.Get req.NamespacedName) (r.Get req.NamespacedName) with
  | .panicked w => .panicked w
  | .returned (.error err) w =>
    if r.IsNotFound err then
      .returned Result.empty none w
    else
      .returned Result.empty (some err) w
  | .returned (.ok limitadorObj) w =>
    if limitadorObj.GetDeletionTimestamp ≠ none then
      .returned Result.empty none w
    else
      let limitadorService := r.LimitadorService limitadorObj
      match w.call (.ReconcileService limitadorService CreateOnlyMutator)
          (r.ReconcileService limitadorService CreateOnlyMutator) with
      | .panicked w => .panicked w
      | .returned (some err) w => .returned Result.empty (some err) w
      | .returned none w =>
        let deployment := r.LimitadorDeployment limitadorObj
        match w.call (.ReconcileDeployment deployment mutateLimitadorDeployment)
            (r.ReconcileDeployment deployment mutateLimitadorDeployment) with
        | .panicked w => .panicked w
        | .returned (some err) w => .returned Result.empty (some err) w
        | .returned none w => .returned Result.empty none w

/-! ## The child reconciler -/

/-- The calls a child reconciler issues to the store. -/
inductive StoreCall where
  | Get (desired : Object)
  | Create (obj : Object)
  | Update (obj : Object)
deriving DecidableEq, Repr

/-- The process memory, the state of the external store, and the store
calls issued so far, oldest first. -/
structure Cluster (τ : Type) where
  mem : Memory
  store : τ
  calls : List StoreCall

/-- Modelled from the spec: the external store collaborator (§6), whose
code is outside this file: `Get` by the identity of the desired object
answers the object found or an error (not-found or other), `Create` and
`Update` answer an error or nil; `IsNotFound` tells the not-found errors. -/
structure StoreClient (τ : Type) where
  Get : Object → Memory → τ → Except Error Object × Memory × τ
  Create : Object → Memory → τ → Option Error × Memory × τ
  Update : Object → Memory → τ → Option Error × Memory × τ
  IsNotFound : Error → Bool

/-- Issue a store call in the cluster, recording it. -/
def Cluster.call {τ α : Type} (c : Cluster τ) (i : StoreCall)
    (f : Memory → τ → α × Memory × τ) : α × Cluster τ :=
  match f c.mem c.store with
  | (a, m, t) => (a, { mem := m, store := t, calls := c.calls ++ [i] })

/-- Modelled from the spec: the Child Reconciler (§4.2),
`reconcilers.BaseReconciler.ReconcileResource`, whose code is outside this
file.  Fetch the existing child by the identity of the desired one; if
absent create the desired child; if found invoke the mutator with
(existing, desired), surface its error, and persist the existing child by
an update call only if the mutator reports a change. -/
def ReconcileResource {τ : Type} (cl : StoreClient τ) (desired : Object)
    (mutateFn : MutateFn) (c : Cluster τ) : Called (Cluster τ) (Option Error) :=
  match c.call (.Get desired) (cl.Get desired) with
  | (.error err, c) =>
    if cl.IsNotFound err then
      match c.call (.Create desired) (cl.Create desired) with
      | (e, c) => .returned e c
    else
      .returned (some err) c
  | (.ok existing, c) =>
    match mutateFn existing desired c.mem with
    | .panicked m => .panicked { c with mem := m }
    | .returned _ (some err) m => .returned (some err) { c with mem := m }
    | .returned true none m =>
      match ({ c with mem := m } : Cluster τ).call (.Update existing) (cl.Update existing) with
      | (e, c) => .returned e c
    | .returned false none m => .returned none { c with mem := m }

/-! ## Vocabulary of the statements -/

/-- A deployment with its `Replicas` pointer replaced, every other field kept. -/
def Deployment.withReplicas (x : Deployment) (r : Option Addr) : Deployment :=
  { x with Spec := { x.Spec with Replicas := r } }

/-- A container with its image replaced, every other field kept. -/
def Container.withImage (c : Container) (img : String) : Container :=
  { c with Image := img }

/-- The memory `mutateFields` leaves behind when it returns: that of the
replica step, with the image assigned when the images differ. -/
def finalMemory (e d : Addr) (m : Memory) : Memory :=
  let m1 := (replicasStep e d m false).1
  if (m1.elements (m1.containerSlice e).ptr).Image
      ≠ (m1.elements (m1.containerSlice d).ptr).Image then
    m1.setImage (m1.containerSlice e).ptr (m1.elements (m1.containerSlice d).ptr).Image
  else
    m1

/-! ## Example memories -/

/-- A container running the image `img`. -/
def exampleContainer (name img : String) : Container :=
  { Name := name, Image := img, Command := ["limitador-server"], Args := [], Ports := [8080] }

/-- A deployment named `demo` with the given `Replicas` pointer and
container slice of `len` elements from address `ptr`. -/
def exampleDeployment (r : Option Addr) (ptr len : Nat) : Deployment :=
  { ObjectMeta := { Name := "demo", Namespace := "default", Labels := [("app", "limitador")],
                    OwnerReferences := ["Limitador/demo"], ResourceVersion := "1",
                    DeletionTimestamp := none },
    Spec := { Replicas := r, Selector := [("app", "limitador")],
              Template := { ObjectMeta := { Name := "", Namespace := "",
                                            Labels := [("app", "limitador")],
                                            OwnerReferences := [], ResourceVersion := "",
                                            DeletionTimestamp := none },
                            Spec := { Containers := { ptr := ptr, len := len, cap := len },
                                      ServiceAccountName := "" } } } }

/-- Existing deployment at address 0 (3 replicas in cell 10; containers at
100 and 101: `img:v1` and a sidecar), desired deployment at address 1
(5 replicas in cell 11; one container at 200: `img:v2`). -/
def divergedMemory : Memory :=
  { int32 := fun a => if a = 10 then 3 else 5,
    deployments := fun a =>
      if a = 0 then exampleDeployment (some 10) 100 2
      else exampleDeployment (some 11) 200 1,
    elements := fun a =>
      if a = 100 then exampleContainer "limitador" "img:v1"
      else if a = 101 then exampleContainer "sidecar" "proxy:v7"
      else exampleContainer "limitador" "img:v2" }

/-- Existing deployment at address 0 and a separately built desired
deployment at address 1, both with 3 replicas (held in the two cells 10
and 11) and image `img:v1` (in the two elements 100 and 200). -/
def convergedMemory : Memory :=
  { int32 := fun _ => 3,
    deployments := fun a =>
      if a = 0 then exampleDeployment (some 10) 100 1
      else exampleDeployment (some 11) 200 1,
    elements := fun _ => exampleContainer "limitador" "img:v1" }

/-- Existing deployment at address 0 without containers, desired deployment
at address 1 with 5 replicas and `img:v2`. -/
def malformedMemory : Memory :=
  { int32 := fun a => if a = 10 then 3 else 5,
    deployments := fun a =>
      if a = 0 then exampleDeployment (some 10) 100 0
      else exampleDeployment (some 11) 200 1,
    elements := fun _ => exampleContainer "limitador" "img:v2" }

/-- One backing array with `img:v2` at 100 and `img:v1` at 101.  The desired
deployment at address 1 has the slice `arr[0:2]` of it, the existing
deployment at address 0 the slice `arr[1:2]`: existing's first container
is desired's second.  Both have the same `Replicas` pointer. -/
def aliasedMemory : Memory :=
  { int32 := fun _ => 3,
    deployments := fun a =>
      if a = 0 then exampleDeployment (some 10) 101 1
      else exampleDeployment (some 10) 100 2,
    elements := fun a =>
      if a = 100 then exampleContainer "limitador" "img:v2"
      else exampleContainer "limitador" "img:v1" }

/-! ## Example collaborators -/

/-- State of the example collaborators: what the fetch of the Limitador
object answers, the errors the child reconcilers answer, and the children. -/
structure ExampleStore where
  limitador : Except Error Limitador
  serviceError : Option Error
  deploymentError : Option Error
  service : Option String
  deployment : Option (Option Int × Option String)

/-- Collaborators over `ExampleStore`: a service is its name, a deployment
its replica count and version; a child reconciler answers the error of the
store, or creates the service if absent, or sets the deployment. -/
def exampleCollaborators : Collaborators ExampleStore String (Option Int × Option String) :=
  { Get := fun _ s => .returned s.limitador s,
    IsNotFound := fun e =>
      match e with
      | .statusError reason _ => reason == "NotFound"
      | .errorString _ => false,
    LimitadorService := fun l => l.ObjectMeta.Name,
    LimitadorDeployment := fun l => (l.Replicas, l.Version),
    ReconcileService := fun svc _ s =>
      match s.serviceError with
      | some e => .returned (some e) s
      | none => .returned none { s with service := some (s.service.getD svc) },
    ReconcileDeployment := fun dep _ s =>
      match s.deploymentError with
      | some e => .returned (some e) s
      | none => .returned none { s with deployment := some dep } }

/-- The Limitador object `demo` with 3 replicas and version `v1`. -/
def demoLimitador (deletion : Option Nat) : Limitador :=
  { ObjectMeta := { Name := "demo", Namespace := "default", Labels := [],
                    OwnerReferences := [], ResourceVersion := "7",
                    DeletionTimestamp := deletion },
    Replicas := some 3, Version := some "v1" }

/-- The request for `default/demo`. -/
def demoRequest : Request := { NamespacedName := { Namespace := "default", Name := "demo" } }

/-- A store where the Limitador object does not exist and neither do the children. -/
def absentStore : ExampleStore :=
  { limitador := .error (.statusError "NotFound" "limitadors demo not found"),
    serviceError := none, deploymentError := none, service := none, deployment := none }

/-- A store where the Limitador object is marked to be deleted, the service
is missing and the deployment has diverged. -/
def deletingStore : ExampleStore :=
  { limitador := .ok (demoLimitador (some 1700000000)),
    serviceError := none, deploymentError := none, service := none,
    deployment := some (some 1, some "v0") }

/-- A store with the Limitador object and no children, where the child
reconcilers answer the given errors. -/
def liveStore (serviceError deploymentError : Option Error) : ExampleStore :=
  { limitador := .ok (demoLimitador none),
    serviceError := serviceError, deploymentError := deploymentError,
    service := none, deployment := none }

/-- A store holding at most one service, by its spec: the fetch answers the
service or a not-found error, a create stores the desired spec, an update
overwrites the spec. -/
def exampleStoreClient : StoreClient (Option String) :=
  { Get := fun _ m t =>
      match t with
      | some _ => (.ok (.other "*v1.Service"), m, t)
      | none => (.error (.statusError "NotFound" "services demo not found"), m, t),
    Create := fun _ m _ => (none, m, some "desired"),
    Update := fun _ m _ => (none, m, some "updated"),
    IsNotFound := fun e =>
      match e with
      | .statusError reason _ => reason == "NotFound"
      | .errorString _ => false }

/-! ## Memory lemmas -/

theorem setReplicas_int32 (m : Memory) (p : Addr) (r : Option Addr) :
    (m.setReplicas p r).int32 = m.int32 := rfl

theorem setReplicas_elements (m : Memory) (p : Addr) (r : Option Addr) :
    (m.setReplicas p r).elements = m.elements := rfl

theorem setReplicas_deployments_ne (m : Memory) (p a : Addr) (r : Option Addr) (h : a ≠ p) :
    (m.setReplicas p r).deployments a = m.deployments a := by
  simp [Memory.setReplicas, Function.update, h]

theorem setReplicas_deployments_self (m : Memory) (p : Addr) (r : Option Addr) :
    (m.setReplicas p r).deployments p = (m.deployments p).withReplicas r := by
  simp [Memory.setReplicas, Deployment.withReplicas]

theorem withReplicas_self (x : Deployment) : x.withReplicas x.Spec.Replicas = x := rfl

theorem withImage_self (c : Container) : c.withImage c.Image = c := rfl

theorem setReplicas_replicas_self (m : Memory) (p : Addr) (r : Option Addr) :
    (m.setReplicas p r).replicas p = r := by
  simp [Memory.setReplicas, Memory.replicas]

theorem setReplicas_replicas_ne (m : Memory) (p a : Addr) (r : Option Addr) (h : a ≠ p) :
    (m.setReplicas p r).replicas a = m.replicas a := by
  simp [Memory.replicas, setReplicas_deployments_ne m p a r h]

theorem setReplicas_containerSlice (m : Memory) (p a : Addr) (r : Option Addr) :
    (m.setReplicas p r).containerSlice a = m.containerSlice a := by
  by_cases h : a = p
  · subst h; simp [Memory.setReplicas, Memory.containerSlice]
  · simp [Memory.containerSlice, setReplicas_deployments_ne m p a r h]

theorem setImage_int32 (m : Memory) (a : Addr) (img : String) :
    (m.setImage a img).int32 = m.int32 := rfl

theorem setImage_deployments (m : Memory) (a : Addr) (img : String) :
    (m.setImage a img).deployments = m.deployments := rfl

theorem setImage_elements_ne (m : Memory) (a b : Addr) (img : String) (h : b ≠ a) :
    (m.setImage a img).elements b = m.elements b := by
  simp [Memory.setImage, Function.update, h]

theorem setImage_elements_self (m : Memory) (a : Addr) (img : String) :
    (m.setImage a img).elements a = (m.elements a).withImage img := by
  simp [Memory.setImage, Container.withImage]

/-- Two memories that agree on the elements of a slice give the same list. -/
theorem slice_congr (m1 m : Memory) (s : ContainerSlice)
    (h : ∀ i, i < s.len → m1.elements (s.ptr + i) = m.elements (s.ptr + i)) :
    m1.slice s = m.slice s := by
  unfold Memory.slice
  apply List.map_congr_left
  intro i hi
  exact h i (List.mem_range.mp hi)

theorem slice_length (m : Memory) (s : ContainerSlice) : (m.slice s).length = s.len := by
  simp [Memory.slice]

/-- A slice of positive length is its element 0 followed by the rest. -/
theorem slice_cons (m : Memory) (s : ContainerSlice) (h : s.len ≠ 0) :
    m.slice s = m.elements s.ptr ::
      (List.range (s.len - 1)).map (fun i => m.elements (s.ptr + (i + 1))) := by
  obtain ⟨n, hn⟩ := Nat.exists_eq_succ_of_ne_zero h
  unfold Memory.slice
  rw [hn, List.range_succ_eq_map]
  simp [Function.comp_def]

theorem containers_ne_nil_iff (m : Memory) (p : Addr) :
    m.containers p ≠ [] ↔ (m.containerSlice p).len ≠ 0 := by
  unfold Memory.containers
  rw [← List.length_pos, slice_length]
  omega

theorem containers_eq_nil_iff (m : Memory) (p : Addr) :
    m.containers p = [] ↔ (m.containerSlice p).len = 0 := by
  have := containers_ne_nil_iff m p
  constructor
  · intro h
    by_contra hc
    exact (this.mpr hc) h
  · intro h
    by_contra hc
    exact (this.mp hc) h

theorem image0_eq (m : Memory) (p : Addr) (h : (m.containerSlice p).len ≠ 0) :
    m.image0 p = some (m.elements (m.containerSlice p).ptr).Image := by
  simp [Memory.image0, Memory.containers, slice_cons m _ h]

/-! ## The replica step -/

theorem replicasStep_int32 (e d : Addr) (m : Memory) (u : Bool) :
    (replicasStep e d m u).1.int32 = m.int32 := by
  unfold replicasStep
  split <;> rfl

theorem replicasStep_elements (e d : Addr) (m : Memory) (u : Bool) :
    (replicasStep e d m u).1.elements = m.elements := by
  unfold replicasStep
  split <;> rfl

theorem replicasStep_deployments_ne (e d a : Addr) (m : Memory) (u : Bool) (h : a ≠ e) :
    (replicasStep e d m u).1.deployments a = m.deployments a := by
  unfold replicasStep
  split
  · exact setReplicas_deployments_ne m e a _ h
  · rfl

theorem replicasStep_deployments_existing (e d : Addr) (m : Memory) (u : Bool) :
    (replicasStep e d m u).1.deployments e = (m.deployments e).withReplicas (m.replicas d) := by
  unfold replicasStep
  by_cases h : m.replicas e = m.replicas d
  · have h2 : (m.deployments e).Spec.Replicas = m.replicas d := h
    simp only [h, ne_eq, not_true_eq_false, if_false]
    rw [← h2]
    rfl
  · simp only [h, ne_eq, not_false_eq_true, if_true]
    exact setReplicas_deployments_self m e _

theorem replicasStep_deployments_desired (e d : Addr) (m : Memory) (u : Bool) :
    (replicasStep e d m u).1.deployments d = m.deployments d := by
  by_cases hed : d = e
  · subst hed
    simp [replicasStep]
  · exact replicasStep_deployments_ne e d d m u hed

theorem replicasStep_containerSlice (e d a : Addr) (m : Memory) (u : Bool) :
    (replicasStep e d m u).1.containerSlice a = m.containerSlice a := by
  unfold replicasStep
  split
  · exact setReplicas_containerSlice m e a _
  · rfl

/-- After the replica step the two `Replicas` pointers are the same. -/
theorem replicasStep_replicas (e d : Addr) (m : Memory) (u : Bool) :
    (replicasStep e d m u).1.replicas e = m.replicas d ∧
    (replicasStep e d m u).1.replicas d = m.replicas d := by
  constructor
  · simp [Memory.replicas, replicasStep_deployments_existing, Deployment.withReplicas]
  · simp [Memory.replicas, replicasStep_deployments_desired]

theorem replicasStep_flag (e d : Addr) (m : Memory) :
    (replicasStep e d m false).2 = decide (m.replicas e ≠ m.replicas d) := by
  unfold replicasStep
  by_cases h : m.replicas e = m.replicas d <;> simp [h]

/-- The replica step is the identity on a memory where the pointers agree. -/
theorem replicasStep_of_eq (e d : Addr) (m : Memory) (u : Bool)
    (h : m.replicas e = m.replicas d) : replicasStep e d m u = (m, u) := by
  simp [replicasStep, h]

/-! ## The mutator on two deployments -/

theorem finalMemory_int32 (e d : Addr) (m : Memory) :
    (finalMemory e d m).int32 = m.int32 := by
  unfold finalMemory
  simp only
  split
  · exact replicasStep_int32 e d m false
  · exact replicasStep_int32 e d m false

theorem finalMemory_deployments (e d : Addr) (m : Memory) :
    (finalMemory e d m).deployments = (replicasStep e d m false).1.deployments := by
  unfold finalMemory
  simp only
  split <;> rfl

theorem finalMemory_deployments_ne (e d a : Addr) (m : Memory) (h : a ≠ e) :
    (finalMemory e d m).deployments a = m.deployments a := by
  rw [finalMemory_deployments]
  exact replicasStep_deployments_ne e d a m false h

/-- The struct at `existing` in the final memory. -/
theorem finalMemory_existing (e d : Addr) (m : Memory) :
    (finalMemory e d m).deployments e = (m.deployments e).withReplicas (m.replicas d) := by
  rw [finalMemory_deployments]
  exact replicasStep_deployments_existing e d m false

/-- The struct at `desired` is the same in the final memory, also when
`desired` and `existing` are the same address. -/
theorem finalMemory_desired (e d : Addr) (m : Memory) :
    (finalMemory e d m).deployments d = m.deployments d := by
  rw [finalMemory_deployments]
  exact replicasStep_deployments_desired e d m false

theorem finalMemory_containerSlice (e d a : Addr) (m : Memory) :
    (finalMemory e d m).containerSlice a = m.containerSlice a := by
  have h := replicasStep_containerSlice e d a m false
  unfold Memory.containerSlice at h ⊢
  rw [finalMemory_deployments]
  exact h

theorem finalMemory_replicas (e d : Addr) (m : Memory) :
    (finalMemory e d m).replicas e = m.replicas d ∧
    (finalMemory e d m).replicas d = m.replicas d := by
  constructor
  · simp [Memory.replicas, finalMemory_existing, Deployment.withReplicas]
  · simp [Memory.replicas, finalMemory_desired]

/-- Every container element other than element 0 of existing's slice is the
same in the final memory. -/
theorem finalMemory_elements_ne (e d a : Addr) (m : Memory)
    (h : a ≠ (m.containerSlice e).ptr) :
    (finalMemory e d m).elements a = m.elements a := by
  unfold finalMemory
  simp only [replicasStep_containerSlice, replicasStep_elements]
  split
  · rw [setImage_elements_ne _ _ _ _ h, replicasStep_elements]
  · rw [replicasStep_elements]

/-- Element 0 of existing's slice in the final memory. -/
theorem finalMemory_elements_existing (e d : Addr) (m : Memory) :
    (finalMemory e d m).elements (m.containerSlice e).ptr =
      (m.elements (m.containerSlice e).ptr).withImage
        (m.elements (m.containerSlice d).ptr).Image := by
  unfold finalMemory
  simp only [replicasStep_containerSlice, replicasStep_elements]
  split
  · rw [setImage_elements_self, replicasStep_elements]
  · rename_i h
    rw [replicasStep_elements]
    have h2 : (m.elements (m.containerSlice e).ptr).Image
        = (m.elements (m.containerSlice d).ptr).Image := by
      by_contra hc
      exact h hc
    rw [← h2]
    rfl

/-- Element 0 of desired's slice is the same in the final memory, also when
it is element 0 of existing's slice. -/
theorem finalMemory_elements_desired (e d : Addr) (m : Memory) :
    (finalMemory e d m).elements (m.containerSlice d).ptr =
      m.elements (m.containerSlice d).ptr := by
  by_cases h : (m.containerSlice d).ptr = (m.containerSlice e).ptr
  · rw [h, finalMemory_elements_existing, ← h]
    rfl
  · exact finalMemory_elements_ne e d _ m h

/-- On slices of positive length `mutateFields` returns, without error, the
flag of the two comparisons and the memory `finalMemory`. -/
theorem mutateFields_eq (e d : Addr) (m : Memory)
    (he : (m.containerSlice e).len ≠ 0) (hd : (m.containerSlice d).len ≠ 0) :
    mutateFields e d m =
      .returned
        (decide (m.replicas e ≠ m.replicas d) ||
          decide ((m.elements (m.containerSlice e).ptr).Image
            ≠ (m.elements (m.containerSlice d).ptr).Image))
        none (finalMemory e d m) := by
  have h3 := replicasStep_flag e d m
  unfold mutateFields finalMemory imageStep
  simp only [replicasStep_containerSlice, replicasStep_elements, he, hd, or_self, if_false, h3]
  by_cases hi : (m.elements (m.containerSlice e).ptr).Image
      = (m.elements (m.containerSlice d).ptr).Image <;> simp [hi]

/-- With a slice of length 0 on either side `mutateFields` panics, in the
memory the replica step left. -/
theorem mutateFields_panicked (e d : Addr) (m : Memory)
    (h : (m.containerSlice e).len = 0 ∨ (m.containerSlice d).len = 0) :
    mutateFields e d m = .panicked (replicasStep e d m false).1 := by
  unfold mutateFields imageStep
  simp only [replicasStep_containerSlice, h, if_true]

/-- A second run of `mutateFields` on the final memory changes nothing. -/
theorem mutateFields_finalMemory (e d : Addr) (m : Memory)
    (he : (m.containerSlice e).len ≠ 0) (hd : (m.containerSlice d).len ≠ 0) :
    mutateFields e d (finalMemory e d m) = .returned false none (finalMemory e d m) := by
  obtain ⟨hr1, hr2⟩ := finalMemory_replicas e d m
  have hr : (finalMemory e d m).replicas e = (finalMemory e d m).replicas d := by
    rw [hr1, hr2]
  have hi : ((finalMemory e d m).elements (m.containerSlice e).ptr).Image
      = ((finalMemory e d m).elements (m.containerSlice d).ptr).Image := by
    rw [finalMemory_elements_existing, finalMemory_elements_desired]
    rfl
  simp only [mutateFields, replicasStep_of_eq e d _ false hr, imageStep,
    finalMemory_containerSlice, he, hd, or_self, if_false, hi, ne_eq, not_true_eq_false]

/-! ## Claims on the deployment mutator -/

/-- C1. Idempotence of `mutateLimitadorDeployment`: on an existing and a
desired deployment with at least one container each, the mutator returns
without error, and applied again to the memory it left, with the same
desired deployment, it returns `changed = false`, no error, and the very
same memory. -/
theorem mutateLimitadorDeployment_idempotent (m : Memory) (e d : Addr)
    (he : m.containers e ≠ []) (hd : m.containers d ≠ []) :
    ∃ changed m1,
      mutateLimitadorDeployment (.deployment (some e)) (.deployment (some d)) m
        = .returned changed none m1 ∧
      mutateLimitadorDeployment (.deployment (some e)) (.deployment (some d)) m1
        = .returned false none m1 := by
  have he1 := (containers_ne_nil_iff m e).mp he
  have hd1 := (containers_ne_nil_iff m d).mp hd
  exact ⟨_, finalMemory e d m, mutateFields_eq e d m he1 hd1,
    mutateFields_finalMemory e d m he1 hd1⟩

/-- Witness for C1 on `divergedMemory`. -/
theorem mutateLimitadorDeployment_idempotent_witness :
    divergedMemory.containers 0 ≠ [] ∧ divergedMemory.containers 1 ≠ [] ∧
    ∃ changed m1,
      mutateLimitadorDeployment (.deployment (some 0)) (.deployment (some 1)) divergedMemory
        = .returned changed none m1 ∧
      mutateLimitadorDeployment (.deployment (some 0)) (.deployment (some 1)) m1
        = .returned false none m1 :=
  ⟨by decide, by decide,
    mutateLimitadorDeployment_idempotent divergedMemory 0 1 (by decide) (by decide)⟩

/-- C2. At the failing input `convergedMemory` the existing deployment holds
the same replica count value (3) and the same image as the separately
built desired deployment, and `mutateLimitadorDeployment` still returns
`changed = true`, having replaced the `Replicas` pointer (cell 10) of the
existing deployment by the desired one (cell 11). -/
theorem mutateLimitadorDeployment_equal_values_changed :
    convergedMemory.replicaCount 0 = some 3 ∧ convergedMemory.replicaCount 1 = some 3 ∧
    convergedMemory.image0 0 = some "img:v1" ∧ convergedMemory.image0 1 = some "img:v1" ∧
    convergedMemory.replicas 0 = some 10 ∧
    ∃ m1,
      mutateLimitadorDeployment (.deployment (some 0)) (.deployment (some 1)) convergedMemory
        = .returned true none m1 ∧
      m1.replicas 0 = some 11 := by
  refine ⟨rfl, rfl, rfl, rfl, rfl, finalMemory 0 1 convergedMemory, ?_, ?_⟩
  · exact mutateFields_eq 0 1 convergedMemory (by decide) (by decide)
  · exact (finalMemory_replicas 0 1 convergedMemory).1

/-- What the mutator does decide on: it returns `changed = true` exactly
when the two `Replicas` pointers or the two first images differ. -/
theorem mutateLimitadorDeployment_changed_iff (m : Memory) (e d : Addr)
    (he : m.containers e ≠ []) (hd : m.containers d ≠ []) :
    ∃ changed m1,
      mutateLimitadorDeployment (.deployment (some e)) (.deployment (some d)) m
        = .returned changed none m1 ∧
      (changed = true ↔ (m.replicas e ≠ m.replicas d ∨ m.image0 e ≠ m.image0 d)) := by
  have he1 := (containers_ne_nil_iff m e).mp he
  have hd1 := (containers_ne_nil_iff m d).mp hd
  refine ⟨_, finalMemory e d m, mutateFields_eq e d m he1 hd1, ?_⟩
  simp [image0_eq m e he1, image0_eq m d hd1]

/-- C3. Convergence of `mutateLimitadorDeployment`: on an existing and a
desired deployment with at least one container each, the mutator returns
without error, and afterwards the replica count of the existing deployment
(pointer and value) and the image of its first container are those of the
desired deployment, which are the ones the desired deployment had before. -/
theorem mutateLimitadorDeployment_converges (m : Memory) (e d : Addr)
    (he : m.containers e ≠ []) (hd : m.containers d ≠ []) :
    ∃ changed m1,
      mutateLimitadorDeployment (.deployment (some e)) (.deployment (some d)) m
        = .returned changed none m1 ∧
      m1.replicas e = m1.replicas d ∧ m1.replicas d = m.replicas d ∧
      m1.replicaCount e = m1.replicaCount d ∧ m1.replicaCount d = m.replicaCount d ∧
      m1.image0 e = m1.image0 d ∧ m1.image0 d = m.image0 d := by
  have he1 := (containers_ne_nil_iff m e).mp he
  have hd1 := (containers_ne_nil_iff m d).mp hd
  obtain ⟨hr1, hr2⟩ := finalMemory_replicas e d m
  have he2 : ((finalMemory e d m).containerSlice e).len ≠ 0 := by
    rw [finalMemory_containerSlice]; exact he1
  have hd2 : ((finalMemory e d m).containerSlice d).len ≠ 0 := by
    rw [finalMemory_containerSlice]; exact hd1
  have hi1 : (finalMemory e d m).image0 e = m.image0 d := by
    rw [image0_eq _ e he2, image0_eq m d hd1, finalMemory_containerSlice,
      finalMemory_elements_existing]
    rfl
  have hi2 : (finalMemory e d m).image0 d = m.image0 d := by
    rw [image0_eq _ d hd2, image0_eq m d hd1, finalMemory_containerSlice,
      finalMemory_elements_desired]
  refine ⟨_, finalMemory e d m, mutateFields_eq e d m he1 hd1, ?_⟩
  simp [Memory.replicaCount, hr1, hr2, hi1, hi2, finalMemory_int32]

/-- Witness for C3 on `divergedMemory`. -/
theorem mutateLimitadorDeployment_converges_witness :
    divergedMemory.containers 0 ≠ [] ∧ divergedMemory.containers 1 ≠ [] ∧
    divergedMemory.replicaCount 0 = some 3 ∧ divergedMemory.image0 0 = some "img:v1" ∧
    divergedMemory.replicaCount 1 = some 5 ∧ divergedMemory.image0 1 = some "img:v2" ∧
    ∃ changed m1,
      mutateLimitadorDeployment (.deployment (some 0)) (.deployment (some 1)) divergedMemory
        = .returned changed none m1 ∧
      m1.replicas 0 = m1.replicas 1 ∧ m1.replicas 1 = divergedMemory.replicas 1 ∧
      m1.replicaCount 0 = m1.replicaCount 1 ∧
      m1.replicaCount 1 = divergedMemory.replicaCount 1 ∧
      m1.image0 0 = m1.image0 1 ∧ m1.image0 1 = divergedMemory.image0 1 :=
  ⟨by decide, by decide, rfl, rfl, rfl, rfl,
    mutateLimitadorDeployment_converges divergedMemory 0 1 (by decide) (by decide)⟩

/-- C4, as stated, fails on `aliasedMemory`, where existing's first container
is the array element that is desired's second container: both deployments
have at least one container, the mutator returns `changed = true`, and the
containers of the desired deployment, `img:v2` and `img:v1` before the
call, are `img:v2` and `img:v2` after it. -/
theorem mutateLimitadorDeployment_aliased_desired_modified :
    aliasedMemory.containers 0 = [exampleContainer "limitador" "img:v1"] ∧
    aliasedMemory.containers 1 =
      [exampleContainer "limitador" "img:v2", exampleContainer "limitador" "img:v1"] ∧
    ∃ m1,
      mutateLimitadorDeployment (.deployment (some 0)) (.deployment (some 1)) aliasedMemory
        = .returned true none m1 ∧
      m1.containers 1 =
        [exampleContainer "limitador" "img:v2", exampleContainer "limitador" "img:v2"] := by
  refine ⟨rfl, rfl, finalMemory 0 1 aliasedMemory, ?_, ?_⟩
  · exact mutateFields_eq 0 1 aliasedMemory (by decide) (by decide)
  · decide

/-- C4, amended.  Frame of `mutateLimitadorDeployment`: on an existing and a
desired deployment with at least one container each, the mutator returns
without error and writes at most two locations, the `Replicas` field of the
existing struct and the `Image` field of the array element that is
existing's first container.  It leaves: every `int32` cell; every deployment
struct other than the existing one, and the desired struct also when it is
the existing one; of the existing struct its metadata, selector and whole
template (slice headers included); every container element other than
existing's first, and of that one every field except the image; the first
container element of desired; hence the number of existing's containers,
its containers after the first and the other fields of its first container;
and the containers of desired whenever existing's first container element
is not one of desired's container elements after the first. -/
theorem mutateLimitadorDeployment_frame (m : Memory) (e d : Addr)
    (he : m.containers e ≠ []) (hd : m.containers d ≠ []) :
    ∃ changed m1,
      mutateLimitadorDeployment (.deployment (some e)) (.deployment (some d)) m
        = .returned changed none m1 ∧
      m1.int32 = m.int32 ∧
      (∀ a, a ≠ e → m1.deployments a = m.deployments a) ∧
      m1.deployments d = m.deployments d ∧
      (∃ r, m1.deployments e = (m.deployments e).withReplicas r) ∧
      (m1.deployments e).ObjectMeta = (m.deployments e).ObjectMeta ∧
      (m1.deployments e).Spec.Selector = (m.deployments e).Spec.Selector ∧
      (m1.deployments e).Spec.Template = (m.deployments e).Spec.Template ∧
      (∀ a, a ≠ (m.containerSlice e).ptr → m1.elements a = m.elements a) ∧
      (∃ img, m1.elements (m.containerSlice e).ptr
        = (m.elements (m.containerSlice e).ptr).withImage img) ∧
      m1.elements (m.containerSlice d).ptr = m.elements (m.containerSlice d).ptr ∧
      (m1.containers e).length = (m.containers e).length ∧
      (m1.containers e).tail = (m.containers e).tail ∧
      (m1.containers e).head?.map (fun c => (c.Name, c.Command, c.Args, c.Ports))
        = (m.containers e).head?.map (fun c => (c.Name, c.Command, c.Args, c.Ports)) ∧
      ((∀ i, 0 < i → i < (m.containerSlice d).len →
          (m.containerSlice d).ptr + i ≠ (m.containerSlice e).ptr) →
        m1.containers d = m.containers d) := by
  have he1 := (containers_ne_nil_iff m e).mp he
  have hd1 := (containers_ne_nil_iff m d).mp hd
  have hx := finalMemory_existing e d m
  have hce : (finalMemory e d m).containers e = (finalMemory e d m).slice (m.containerSlice e) := by
    unfold Memory.containers
    rw [finalMemory_containerSlice]
  have hcd : (finalMemory e d m).containers d = (finalMemory e d m).slice (m.containerSlice d) := by
    unfold Memory.containers
    rw [finalMemory_containerSlice]
  refine ⟨_, finalMemory e d m, mutateFields_eq e d m he1 hd1,
    finalMemory_int32 e d m, fun a ha => finalMemory_deployments_ne e d a m ha,
    finalMemory_desired e d m, ⟨_, hx⟩, ?_, ?_, ?_,
    fun a ha => finalMemory_elements_ne e d a m ha,
    ⟨_, finalMemory_elements_existing e d m⟩, finalMemory_elements_desired e d m,
    ?_, ?_, ?_, ?_⟩
  · rw [hx]; rfl
  · rw [hx]; rfl
  · rw [hx]; rfl
  · rw [hce]
    unfold Memory.containers
    rw [slice_length, slice_length]
  · rw [hce]
    unfold Memory.containers
    rw [slice_cons _ _ he1, slice_cons _ _ he1]
    simp only [List.tail_cons]
    apply List.map_congr_left
    intro i _
    exact finalMemory_elements_ne e d ((m.containerSlice e).ptr + (i + 1)) m (by simp)
  · rw [hce]
    unfold Memory.containers
    rw [slice_cons _ _ he1, slice_cons _ _ he1, finalMemory_elements_existing]
    rfl
  · intro hno
    rw [hcd]
    unfold Memory.containers
    apply slice_congr
    intro i hi
    by_cases h0 : i = 0
    · subst h0
      exact finalMemory_elements_desired e d m
    · exact finalMemory_elements_ne e d _ m (hno i (Nat.pos_of_ne_zero h0) hi)

/-- Witness for C4, amended, on `divergedMemory`, whose existing deployment
has a second container and whose two container slices are disjoint. -/
theorem mutateLimitadorDeployment_frame_witness :
    divergedMemory.containers 0 ≠ [] ∧ divergedMemory.containers 1 ≠ [] ∧
    ∃ changed m1,
      mutateLimitadorDeployment (.deployment (some 0)) (.deployment (some 1)) divergedMemory
        = .returned changed none m1 ∧
      m1.int32 = divergedMemory.int32 ∧
      (∀ a, a ≠ 0 → m1.deployments a = divergedMemory.deployments a) ∧
      m1.deployments 1 = divergedMemory.deployments 1 ∧
      (m1.deployments 0).ObjectMeta = (divergedMemory.deployments 0).ObjectMeta ∧
      (m1.deployments 0).Spec.Selector = (divergedMemory.deployments 0).Spec.Selector ∧
      (m1.deployments 0).Spec.Template = (divergedMemory.deployments 0).Spec.Template ∧
      (∀ a, a ≠ 100 → m1.elements a = divergedMemory.elements a) ∧
      (m1.containers 0).length = 2 ∧
      (m1.containers 0).tail = [exampleContainer "sidecar" "proxy:v7"] ∧
      (m1.containers 0).head?.map (fun c => (c.Name, c.Command, c.Args, c.Ports))
        = some ("limitador", ["limitador-server"], [], [8080]) ∧
      m1.containers 1 = [exampleContainer "limitador" "img:v2"] := by
  obtain ⟨changed, m1, h1, h2, h3, h4, -, h6, h7, h8, h9, -, -, h12, h13, h14, h15⟩ :=
    mutateLimitadorDeployment_frame divergedMemory 0 1 (by decide) (by decide)
  refine ⟨by decide, by decide, changed, m1, h1, h2, h3, h4, h6, h7, h8, h9, h12, h13, h14, ?_⟩
  rw [h15 ?_]
  · rfl
  · intro i hi1 hi2
    have : i < 1 := hi2
    omega

/-- C8. Type mismatch: when the existing object is not a `*appsv1.Deployment`
the mutator returns `false` and the error whose message is the `%T`
rendering of the existing object followed by ` is not a *appsv1.Deployment`;
when the existing object is one and the desired object is not, the same
with the rendering of the desired object; in both cases the memory is the
one it was called on.  When both are `*appsv1.Deployment` values the mutator
never returns an error. -/
theorem mutateLimitadorDeployment_type_mismatch :
    (∀ (existingObj desiredObj : Object) (m : Memory), existingObj.isDeployment = false →
      mutateLimitadorDeployment existingObj desiredObj m
        = .returned false
            (some (.errorString (goTypeName existingObj ++ " is not a *appsv1.Deployment")))
            m) ∧
    (∀ (existingObj desiredObj : Object) (m : Memory), existingObj.isDeployment = true →
      desiredObj.isDeployment = false →
      mutateLimitadorDeployment existingObj desiredObj m
        = .returned false
            (some (.errorString (goTypeName desiredObj ++ " is not a *appsv1.Deployment")))
            m) ∧
    (∀ (existingObj desiredObj : Object) (m : Memory), existingObj.isDeployment = true →
      desiredObj.isDeployment = true →
      ∀ (changed : Bool) (err : Error) (m1 : Memory),
        mutateLimitadorDeployment existingObj desiredObj m
          ≠ .returned changed (some err) m1) := by
  refine ⟨?_, ?_, ?_⟩
  · intro existingObj desiredObj m h
    cases existingObj <;> simp_all [Object.isDeployment, mutateLimitadorDeployment]
  · intro existingObj desiredObj m h1 h2
    cases existingObj <;> cases desiredObj <;>
      simp_all [Object.isDeployment, mutateLimitadorDeployment]
  · intro existingObj desiredObj m h1 h2 changed err m1
    cases existingObj with
    | nil => simp [Object.isDeployment] at h1
    | other t => simp [Object.isDeployment] at h1
    | deployment e =>
      cases desiredObj with
      | nil => simp [Object.isDeployment] at h2
      | other t => simp [Object.isDeployment] at h2
      | deployment d =>
        cases e with
        | none => simp [mutateLimitadorDeployment]
        | some e =>
          cases d with
          | none => simp [mutateLimitadorDeployment]
          | some d =>
            simp only [mutateLimitadorDeployment, mutateFields, imageStep]
            split
            · simp
            · split <;> simp

/-- The mutator at concrete mismatching objects: a service as the existing
object, the nil interface as the desired object of a deployment. -/
theorem mutateLimitadorDeployment_type_mismatch_examples :
    mutateLimitadorDeployment (.other "*v1.Service") (.deployment (some 1)) divergedMemory
      = .returned false (some (.errorString "*v1.Service is not a *appsv1.Deployment"))
          divergedMemory ∧
    mutateLimitadorDeployment (.deployment (some 0)) .nil divergedMemory
      = .returned false (some (.errorString "<nil> is not a *appsv1.Deployment"))
          divergedMemory := by
  constructor
  · simp [mutateLimitadorDeployment, goTypeName]
  · simp [mutateLimitadorDeployment, goTypeName]

/-- C9, as stated, fails on `malformedMemory`: the existing deployment has
no container, and the mutator does not return an error, it panics at the
access to the first container, after it has overwritten the `Replicas`
pointer of the existing deployment. -/
theorem mutateLimitadorDeployment_malformed_panics :
    malformedMemory.containers 0 = [] ∧ malformedMemory.replicas 0 = some 10 ∧
    ∃ m1,
      mutateLimitadorDeployment (.deployment (some 0)) (.deployment (some 1)) malformedMemory
        = .panicked m1 ∧
      m1.replicas 0 = some 11 := by
  refine ⟨rfl, rfl, _, mutateFields_panicked 0 1 malformedMemory (Or.inl rfl), ?_⟩
  exact (replicasStep_replicas 0 1 malformedMemory false).1

/-- C9, amended. On two deployments the mutator panics exactly when the
container list of the existing or of the desired deployment is empty, it
returns without error exactly when both lists are non-empty, and it never
returns an error. -/
theorem mutateLimitadorDeployment_panics_iff (m : Memory) (e d : Addr) :
    ((∃ m1, mutateLimitadorDeployment (.deployment (some e)) (.deployment (some d)) m
        = .panicked m1) ↔ (m.containers e = [] ∨ m.containers d = [])) ∧
    ((∃ changed m1, mutateLimitadorDeployment (.deployment (some e)) (.deployment (some d)) m
        = .returned changed none m1) ↔ (m.containers e ≠ [] ∧ m.containers d ≠ [])) ∧
    (∀ (changed : Bool) (err : Error) (m1 : Memory),
      mutateLimitadorDeployment (.deployment (some e)) (.deployment (some d)) m
        ≠ .returned changed (some err) m1) := by
  have key : mutateLimitadorDeployment (.deployment (some e)) (.deployment (some d)) m
      = mutateFields e d m := rfl
  rw [key]
  by_cases h : m.containers e = [] ∨ m.containers d = []
  · have h0 : (m.containerSlice e).len = 0 ∨ (m.containerSlice d).len = 0 :=
      h.imp (containers_eq_nil_iff m e).mp (containers_eq_nil_iff m d).mp
    rw [mutateFields_panicked e d m h0]
    refine ⟨⟨fun _ => h, fun _ => ⟨_, rfl⟩⟩, ⟨?_, ?_⟩, ?_⟩
    · rintro ⟨c, m1, hc⟩
      cases hc
    · rintro ⟨h1, h2⟩
      rcases h with h | h
      · exact absurd h h1
      · exact absurd h h2
    · intro c err m1 hc
      cases hc
  · have he : m.containers e ≠ [] := fun hc => h (Or.inl hc)
    have hd : m.containers d ≠ [] := fun hc => h (Or.inr hc)
    rw [mutateFields_eq e d m ((containers_ne_nil_iff m e).mp he)
      ((containers_ne_nil_iff m d).mp hd)]
    refine ⟨⟨?_, fun hc => absurd hc h⟩, ⟨fun _ => ⟨he, hd⟩, fun _ => ⟨_, _, rfl⟩⟩, ?_⟩
    · rintro ⟨m1, hc⟩
      cases hc
    · intro c err m1 hc
      cases hc

/-! ## Claims on the reconcile loop -/

/-- C5. Absence short-circuit: when the fetch of the Limitador object returns
an error that `IsNotFound` accepts, `Reconcile` returns the empty result and
a nil error, and the only call it has made is that fetch. -/
theorem Reconcile_not_found {σ Svc Dep : Type} (r : Collaborators σ Svc Dep) (req : Request)
    (w : World σ Svc Dep) (err : Error) (s1 : σ)
    (hget : r.Get req.NamespacedName w.state = .returned (.error err) s1)
    (hnf : r.IsNotFound err = true) :
    Reconcile r req w =
      .returned { Requeue := false, RequeueAfter := 0 } none
        { state := s1, trace := w.trace ++ [.Get req.NamespacedName] } := by
  simp [Reconcile, World.call, hget, hnf, Result.empty]

/-- Witness for C5 on `absentStore`. -/
theorem Reconcile_not_found_witness :
    exampleCollaborators.Get demoRequest.NamespacedName absentStore
      = .returned (.error (.statusError "NotFound" "limitadors demo not found")) absentStore ∧
    exampleCollaborators.IsNotFound (.statusError "NotFound" "limitadors demo not found")
      = true ∧
    Reconcile exampleCollaborators demoRequest { state := absentStore, trace := [] } =
      .returned { Requeue := false, RequeueAfter := 0 } none
        { state := absentStore, trace := [.Get demoRequest.NamespacedName] } :=
  ⟨rfl, by decide,
    Reconcile_not_found exampleCollaborators demoRequest { state := absentStore, trace := [] }
      _ absentStore rfl (by decide)⟩

/-- C6. Deletion short-circuit: when the fetched Limitador object has a
deletion timestamp, `Reconcile` returns the empty result and a nil error,
and the only call it has made is the fetch, whatever the state the fetch
left (children missing or diverged). -/
theorem Reconcile_marked_to_be_deleted {σ Svc Dep : Type} (r : Collaborators σ Svc Dep)
    (req : Request) (w : World σ Svc Dep) (limitadorObj : Limitador) (s1 : σ)
    (hget : r.Get req.NamespacedName w.state = .returned (.ok limitadorObj) s1)
    (hdel : limitadorObj.GetDeletionTimestamp ≠ none) :
    Reconcile r req w =
      .returned { Requeue := false, RequeueAfter := 0 } none
        { state := s1, trace := w.trace ++ [.Get req.NamespacedName] } := by
  simp [Reconcile, World.call, hget, hdel, Result.empty]

/-- Witness for C6 on `deletingStore`. -/
theorem Reconcile_marked_to_be_deleted_witness :
    exampleCollaborators.Get demoRequest.NamespacedName deletingStore
      = .returned (.ok (demoLimitador (some 1700000000))) deletingStore ∧
    (demoLimitador (some 1700000000)).GetDeletionTimestamp ≠ none ∧
    Reconcile exampleCollaborators demoRequest { state := deletingStore, trace := [] } =
      .returned { Requeue := false, RequeueAfter := 0 } none
        { state := deletingStore, trace := [.Get demoRequest.NamespacedName] } :=
  ⟨rfl, by decide,
    Reconcile_marked_to_be_deleted exampleCollaborators demoRequest
      { state := deletingStore, trace := [] } _ deletingStore rfl (by decide)⟩

/-- C7. First-error propagation in fixed order: `Reconcile` returns a
non-nil error `e` exactly when the fetch returned `e` and `e` is not a
not-found error (and nothing else was called), or the fetch succeeded on an
object not marked to be deleted and the service reconcile returned `e` (and
the deployment reconcile was not called), or the service reconcile returned
nil and the deployment reconcile, called after it on the state it left,
returned `e`; the result is the empty one and the calls made are those up
to the failing step, in the order fetch, service, deployment. -/
theorem Reconcile_error_iff {σ Svc Dep : Type} (r : Collaborators σ Svc Dep) (req : Request)
    (w : World σ Svc Dep) (res : Result) (e : Error) (w1 : World σ Svc Dep) :
    Reconcile r req w = .returned res (some e) w1 ↔
      res = { Requeue := false, RequeueAfter := 0 } ∧
      ((∃ s1, r.Get req.NamespacedName w.state = .returned (.error e) s1 ∧
          r.IsNotFound e = false ∧
          w1 = { state := s1, trace := w.trace ++ [.Get req.NamespacedName] }) ∨
       (∃ limitadorObj s1 s2,
          r.Get req.NamespacedName w.state = .returned (.ok limitadorObj) s1 ∧
          limitadorObj.GetDeletionTimestamp = none ∧
          r.ReconcileService (r.LimitadorService limitadorObj) CreateOnlyMutator s1
            = .returned (some e) s2 ∧
          w1 = { state := s2, trace := w.trace ++ [.Get req.NamespacedName] ++
            [.ReconcileService (r.LimitadorService limitadorObj) CreateOnlyMutator] }) ∨
       (∃ limitadorObj s1 s2 s3,
          r.Get req.NamespacedName w.state = .returned (.ok limitadorObj) s1 ∧
          limitadorObj.GetDeletionTimestamp = none ∧
          r.ReconcileService (r.LimitadorService limitadorObj) CreateOnlyMutator s1
            = .returned none s2 ∧
          r.ReconcileDeployment (r.LimitadorDeployment limitadorObj)
            mutateLimitadorDeployment s2 = .returned (some e) s3 ∧
          w1 = { state := s3, trace := w.trace ++ [.Get req.NamespacedName] ++
            [.ReconcileService (r.LimitadorService limitadorObj) CreateOnlyMutator] ++
            [.ReconcileDeployment (r.LimitadorDeployment limitadorObj)
              mutateLimitadorDeployment] })) := by
  unfold Reconcile World.call
  rcases hg : r.Get req.NamespacedName w.state with ⟨a, s1⟩ | s1
  · rcases a with err | obj
    · by_cases hnf : r.IsNotFound err = true
      · simp only [hnf, if_true]
        constructor
        · intro h; cases h
        · rintro ⟨-, ⟨s, h1, h2, -⟩ | ⟨o, s, s2, h1, -⟩ | ⟨o, s, s2, s3, h1, -⟩⟩
          · cases h1; rw [hnf] at h2; cases h2
          · cases h1
          · cases h1
      · simp only [hnf]
        constructor
        · intro h
          cases h
          exact ⟨rfl, Or.inl ⟨s1, rfl, by simpa using hnf, rfl⟩⟩
        · rintro ⟨hres, ⟨s, h1, -, h3⟩ | ⟨o, s, s2, h1, -⟩ | ⟨o, s, s2, s3, h1, -⟩⟩
          · cases h1; subst hres; subst h3; rfl
          · cases h1
          · cases h1
    · by_cases hdel : obj.GetDeletionTimestamp = none
      · simp only [hdel, ne_eq, not_true_eq_false, if_false]
        rcases hs : r.ReconcileService (r.LimitadorService obj) CreateOnlyMutator s1
          with ⟨es, s2⟩ | s2
        · rcases es with _ | es
          · simp only
            rcases hd : r.ReconcileDeployment (r.LimitadorDeployment obj)
              mutateLimitadorDeployment s2 with ⟨ed, s3⟩ | s3
            · rcases ed with _ | ed
              · simp only
                constructor
                · intro h; cases h
                · rintro ⟨-, ⟨s, h1, -⟩ | ⟨o, s, t2, h1, -, h3, -⟩ |
                    ⟨o, s, t2, t3, h1, -, h3, h4, -⟩⟩
                  · cases h1
                  · cases h1; rw [hs] at h3; cases h3
                  · cases h1; rw [hs] at h3; cases h3; rw [hd] at h4; cases h4
              · simp only
                constructor
                · intro h
                  cases h
                  exact ⟨rfl, Or.inr (Or.inr ⟨obj, s1, s2, s3, rfl, hdel, hs, hd, rfl⟩)⟩
                · rintro ⟨hres, ⟨s, h1, -⟩ | ⟨o, s, t2, h1, -, h3, -⟩ |
                    ⟨o, s, t2, t3, h1, -, h3, h4, h5⟩⟩
                  · cases h1
                  · cases h1; rw [hs] at h3; cases h3
                  · cases h1; rw [hs] at h3; cases h3; rw [hd] at h4; cases h4
                    subst hres; subst h5; rfl
            · simp only
              constructor
              · intro h; cases h
              · rintro ⟨-, ⟨s, h1, -⟩ | ⟨o, s, t2, h1, -, h3, -⟩ |
                  ⟨o, s, t2, t3, h1, -, h3, h4, -⟩⟩
                · cases h1
                · cases h1; rw [hs] at h3; cases h3
                · cases h1; rw [hs] at h3; cases h3; rw [hd] at h4; cases h4
          · simp only
            constructor
            · intro h
              cases h
              exact ⟨rfl, Or.inr (Or.inl ⟨obj, s1, s2, rfl, hdel, hs, rfl⟩)⟩
            · rintro ⟨hres, ⟨s, h1, -⟩ | ⟨o, s, t2, h1, -, h3, h4⟩ |
                ⟨o, s, t2, t3, h1, -, h3, -⟩⟩
              · cases h1
              · cases h1; rw [hs] at h3; cases h3; subst hres; subst h4; rfl
              · cases h1; rw [hs] at h3; cases h3
        · simp only
          constructor
          · intro h; cases h
          · rintro ⟨-, ⟨s, h1, -⟩ | ⟨o, s, t2, h1, -, h3, -⟩ | ⟨o, s, t2, t3, h1, -, h3, -⟩⟩
            · cases h1
            · cases h1; rw [hs] at h3; cases h3
            · cases h1; rw [hs] at h3; cases h3
      · simp only [hdel, ne_eq, not_false_eq_true, if_true]
        constructor
        · intro h; cases h
        · rintro ⟨-, ⟨s, h1, -⟩ | ⟨o, s, t2, h1, h2, -⟩ | ⟨o, s, t2, t3, h1, h2, -⟩⟩
          · cases h1
          · cases h1; exact absurd h2 hdel
          · cases h1; exact absurd h2 hdel
  · simp only
    constructor
    · intro h; cases h
    · rintro ⟨-, ⟨s, h1, -⟩ | ⟨o, s, t2, h1, -⟩ | ⟨o, s, t2, t3, h1, -⟩⟩
      · cases h1
      · cases h1
      · cases h1

/-- The pass on the example store when the service reconcile fails, and when
the deployment reconcile fails after the service was created. -/
theorem Reconcile_error_examples :
    Reconcile exampleCollaborators demoRequest
        { state := liveStore (some (.errorString "conflict")) none, trace := [] } =
      .returned Result.empty (some (.errorString "conflict"))
        { state := liveStore (some (.errorString "conflict")) none,
          trace := [.Get demoRequest.NamespacedName,
                    .ReconcileService "demo" CreateOnlyMutator] } ∧
    Reconcile exampleCollaborators demoRequest
        { state := liveStore none (some (.errorString "timeout")), trace := [] } =
      .returned Result.empty (some (.errorString "timeout"))
        { state := { liveStore none (some (.errorString "timeout")) with
                     service := some "demo" },
          trace := [.Get demoRequest.NamespacedName,
                    .ReconcileService "demo" CreateOnlyMutator,
                    .ReconcileDeployment (some 3, some "v1") mutateLimitadorDeployment] } :=
  ⟨rfl, rfl⟩

/-- C10. Create-then-freeze for the service child.  On a pass that reaches
the child steps (the fetch succeeded on an object not marked to be deleted)
the calls made are the fetch, then the service reconcile with
`CreateOnlyMutator`, then, when that returned nil, the deployment reconcile
with `mutateLimitadorDeployment`.  `CreateOnlyMutator` reports no change and
no error on every pair and leaves the memory as it is.  The child reconciler
run with `CreateOnlyMutator` never issues an update: when the store has the
child it issues the fetch only and returns nil with the cluster as the fetch
left it; when the fetch answers not-found it issues the fetch and one
create; on another fetch error it issues the fetch only and returns the
error. -/
theorem Reconcile_service_create_only {σ Svc Dep : Type} (τ : Type)
    (r : Collaborators σ Svc Dep) (req : Request) (w : World σ Svc Dep)
    (limitadorObj : Limitador) (s1 : σ)
    (hget : r.Get req.NamespacedName w.state = .returned (.ok limitadorObj) s1)
    (hdel : limitadorObj.GetDeletionTimestamp = none) :
    (match r.ReconcileService (r.LimitadorService limitadorObj) CreateOnlyMutator s1 with
      | .returned none _ =>
        (Reconcile r req w).world.trace = w.trace ++
          [.Get req.NamespacedName,
           .ReconcileService (r.LimitadorService limitadorObj) CreateOnlyMutator,
           .ReconcileDeployment (r.LimitadorDeployment limitadorObj)
             mutateLimitadorDeployment]
      | _ =>
        (Reconcile r req w).world.trace = w.trace ++
          [.Get req.NamespacedName,
           .ReconcileService (r.LimitadorService limitadorObj) CreateOnlyMutator]) ∧
    (∀ (existing desired : Object) (m : Memory),
      CreateOnlyMutator existing desired m = .returned false none m) ∧
    (∀ (cl : StoreClient τ) (desired : Object) (c : Cluster τ),
      match cl.Get desired c.mem c.store with
      | (.ok _, m, t) =>
        ReconcileResource cl desired CreateOnlyMutator c =
          .returned none { mem := m, store := t, calls := c.calls ++ [.Get desired] }
      | (.error err, m, t) =>
        if cl.IsNotFound err then
          ReconcileResource cl desired CreateOnlyMutator c =
            .returned (cl.Create desired m t).1
              { mem := (cl.Create desired m t).2.1, store := (cl.Create desired m t).2.2,
                calls := c.calls ++ [.Get desired] ++ [.Create desired] }
        else
          ReconcileResource cl desired CreateOnlyMutator c =
            .returned (some err)
              { mem := m, store := t, calls := c.calls ++ [.Get desired] }) := by
  refine ⟨?_, fun _ _ _ => rfl, ?_⟩
  · unfold Reconcile World.call
    simp only [hget, hdel, ne_eq, not_true_eq_false, if_false]
    rcases hs : r.ReconcileService (r.LimitadorService limitadorObj) CreateOnlyMutator s1
      with ⟨es, s2⟩ | s2
    · rcases es with _ | es
      · simp only
        rcases hd : r.ReconcileDeployment (r.LimitadorDeployment limitadorObj)
            mutateLimitadorDeployment s2 with ⟨ed, s3⟩ | s3
        · rcases ed with _ | ed <;> simp [ReconcileResult.world]
        · simp [ReconcileResult.world]
      · simp [ReconcileResult.world]
    · simp [ReconcileResult.world]
  · intro cl desired c
    unfold ReconcileResource Cluster.call
    rcases hg : cl.Get desired c.mem c.store with ⟨a, m, t⟩
    rcases a with err | existing
    · by_cases hnf : cl.IsNotFound err = true
      · simp [hnf]
      · simp [hnf]
    · simp [CreateOnlyMutator]

/-- Witness for C10: the pass on the example store with no children, and the
child reconciler on a store where the service exists with a spec of its own
and on one where it is absent. -/
theorem Reconcile_service_create_only_witness :
    exampleCollaborators.Get demoRequest.NamespacedName (liveStore none none)
      = .returned (.ok (demoLimitador none)) (liveStore none none) ∧
    (demoLimitador none).GetDeletionTimestamp = none ∧
    (Reconcile exampleCollaborators demoRequest
        { state := liveStore none none, trace := [] }).world.trace =
      [.Get demoRequest.NamespacedName,
       .ReconcileService "demo" CreateOnlyMutator,
       .ReconcileDeployment (some 3, some "v1") mutateLimitadorDeployment] ∧
    ReconcileResource exampleStoreClient (.other "*v1.Service") CreateOnlyMutator
        { mem := divergedMemory, store := some "arbitrary", calls := [] } =
      .returned none
        { mem := divergedMemory, store := some "arbitrary",
          calls := [.Get (.other "*v1.Service")] } ∧
    ReconcileResource exampleStoreClient (.other "*v1.Service") CreateOnlyMutator
        { mem := divergedMemory, store := none, calls := [] } =
      .returned none
        { mem := divergedMemory, store := some "desired",
          calls := [.Get (.other "*v1.Service"), .Create (.other "*v1.Service")] } :=
  ⟨rfl, rfl,
    (Reconcile_service_create_only (Option String) exampleCollaborators demoRequest
      { state := liveStore none none, trace := [] } (demoLimitador none) (liveStore none none)
      rfl rfl).1,
    (Reconcile_service_create_only (Option String) exampleCollaborators demoRequest
      { state := liveStore none none, trace := [] } (demoLimitador none) (liveStore none none)
      rfl rfl).2.2 exampleStoreClient (.other "*v1.Service")
      { mem := divergedMemory, store := some "arbitrary", calls := [] },
    (Reconcile_service_create_only (Option String) exampleCollaborators demoRequest
      { state := liveStore none none, trace := [] } (demoLimitador none) (liveStore none none)
      rfl rfl).2.2 exampleStoreClient (.other "*v1.Service")
      { mem := divergedMemory, store := none, calls := [] }⟩

end controllers
